import Mathlib

/-!
A shallow embedding of the spotifio repository (src/spotifio/oauth.py,
src/spotifio/client.py, src/spotifio/storage.py) in Lean 4, together with
theorems settling the specification claims about the OAuth token lifecycle,
the callback handler, the scope gate, the retry logic of the request
executor, and the JSON token storage.

Modelling conventions:
- Python dict values that appear in token records are modelled by `JVal`
  (strings and integers suffice for every field the code touches).
  A Python dict is an association list with unique keys (`Tok`); lookup,
  membership and item assignment follow CPython semantics (assignment
  replaces the value in place, preserving insertion order).
- `time.time()` is modelled as an integer clock passed explicitly.
  The code only compares and adds these values, so the float vs int
  distinction is immaterial to every claim treated here.
- Fallible Python code (raise) is modelled with `Except PyErr`.
- The cooperative asyncio execution of `TokenHandler.get_token` together
  with the background `_token_refresher` task and a 401-handling request
  task is modelled by a deterministic small-step machine further below,
  following the CPython event-loop semantics (FIFO ready queue, timed
  suspensions, `asyncio.Event` with waiter futures).
-/

namespace Spotifio

/-- JSON-representable scalar values occurring in token records. -/
inductive JVal where
  | s (v : String)
  | n (v : Int)
  deriving DecidableEq, Repr

/-- A Python dict as used for token records: association list, unique keys. -/
abbrev Tok := List (String × JVal)

/-- Python `d[k]` / `d.get(k)`: first binding of the key. -/
def dget : Tok → String → Option JVal
  | [], _ => none
  | (k1, v1) :: rest, k => if k1 = k then some v1 else dget rest k

/-- Python `k in d`. -/
def dmem (t : Tok) (k : String) : Bool := (dget t k).isSome

/-- Python `d[k] = v`: replace the existing binding in place, else append. -/
def dset : Tok → String → JVal → Tok
  | [], k, v => [(k, v)]
  | (k1, v1) :: rest, k, v =>
      if k1 = k then (k1, v) :: rest else (k1, v1) :: dset rest k v

/-- Python truthiness of `self._token`: `None` and the empty dict are falsy. -/
def truthyTok : Option Tok → Bool
  | none => false
  | some t => !t.isEmpty

/-! ## storage.py — JSONStorage (claim C9)

`JSONStorage.save_token` writes `json.dumps(token)` to
`os.path.join(storage_dir, name + "_token.json")`; `load_token` returns
`None` when the file does not exist and `json.loads` of its content
otherwise.  The file system is modelled as an association list from paths
to the stored JSON value; `json.loads (json.dumps d) == d` for the
JSON-representable dicts the code stores, so file content is modelled by
the value itself. -/

/-- File system: path to stored JSON token value. -/
abbrev FS := List (String × Tok)

def fsWrite : FS → String → Tok → FS
  | [], p, t => [(p, t)]
  | (p1, t1) :: rest, p, t =>
      if p1 = p then (p1, t) :: rest else (p1, t1) :: fsWrite rest p t

def fsRead : FS → String → Option Tok
  | [], _ => none
  | (p1, t1) :: rest, p => if p1 = p then some t1 else fsRead rest p

/-- `os.path.join(self.storage_dir, name + "_token.json")`. -/
def tokenFilePath (storage_dir name : String) : String :=
  storage_dir ++ "/" ++ name ++ "_token.json"

/-- `JSONStorage.save_token` (storage.py lines 43-47). -/
def save_token (fs : FS) (storage_dir : String) (token : Tok) (name : String) : FS :=
  fsWrite fs (tokenFilePath storage_dir name) token

/-- `JSONStorage.load_token` (storage.py lines 49-55): `None` when the
file is absent, the parsed content otherwise; never raises. -/
def load_token (fs : FS) (storage_dir name : String) : Option Tok :=
  fsRead fs (tokenFilePath storage_dir name)

/-! ## oauth.py — TokenHandler._token_request (claims C8, C10)

Transcription of oauth.py lines 115-129.  `r_token` is a Python local
that is assigned only inside the `if self._token:` branch (line 117-119);
reading it on line 126 without that assignment raises UnboundLocalError.
Line 119 itself raises KeyError when the held token lacks the
"refresh_token" key.  On a non-200 response line 123 raises; otherwise
line 124 assigns the raw response JSON to `self._token` before the merge
on lines 125-126 and the expiry computation on line 127, and line 128
persists the finished record. -/

inductive PyErr where
  | keyError (k : String)
  | unboundLocal (v : String)
  | valueError (v : String)
  | tokenRequestFailed (text : String)
  deriving DecidableEq, Repr

/-- A token-endpoint HTTP response: status, parsed JSON body, raw text. -/
structure HttpResp where
  status : Nat
  body : Tok
  text : String
  deriving DecidableEq, Repr

/-- Outcome of `_token_request`: the returned value or raised error, the
final value of `self._token`, and the record passed to
`storage.save_token` (none when line 128 was never reached). -/
structure TRout where
  result : Except PyErr Tok
  selfToken : Option Tok
  saved : Option Tok
  deriving Repr

/-- Python `int(v)` on the values occurring here. -/
def pyInt : JVal → Option Int
  | .n i => some i
  | .s v => v.toInt?

/-- Line 127-129: `expires_time = time.time() + int(expires_in)`, save, return. -/
def tokenRequestExpiry (j : Tok) (now : Int) : TRout :=
  match dget j "expires_in" with
  | none => ⟨.error (.keyError "expires_in"), some j, none⟩
  | some v =>
      match pyInt v with
      | none => ⟨.error (.valueError "expires_in"), some j, none⟩
      | some ei =>
          let j2 := dset j "expires_time" (.n (now + ei))
          ⟨.ok j2, some j2, some j2⟩

/-- Lines 125-129: merge of a missing refresh_token from the local
`r_token` (none models the unassigned local), expiry computation and
persistence. -/
def tokenRequestFinish (r_token : Option JVal) (j : Tok) (now : Int) : TRout :=
  -- line 125-126
  if dmem j "refresh_token" then tokenRequestExpiry j now
  else
    match r_token with
    | some v => tokenRequestExpiry (dset j "refresh_token" v) now
    | none => ⟨.error (.unboundLocal "r_token"), some j, none⟩

/-- Lines 120-124 given the already-evaluated `r_token` local. -/
def tokenRequestPost (r_token : Option JVal) (prior : Option Tok)
    (resp : HttpResp) (now : Int) : TRout :=
  if resp.status ≠ 200 then
    ⟨.error (.tokenRequestFailed resp.text), prior, none⟩
  else
    tokenRequestFinish r_token resp.body now

/-- `TokenHandler._token_request` (oauth.py lines 115-129). -/
def token_request (prior : Option Tok) (resp : HttpResp) (now : Int) : TRout :=
  if truthyTok prior then
    match dget (prior.getD []) "refresh_token" with
    | none => ⟨.error (.keyError "refresh_token"), prior, none⟩
    | some rt => tokenRequestPost (some rt) prior resp now
  else
    tokenRequestPost none prior resp now

/-! ## oauth.py — TokenHandler._callback_handler (claims C6, C7)

Transcription of oauth.py lines 80-88.  The aiohttp request query is
modelled by the three parameters the handler reads; the relevant handler
state is the nonce `self._state`, `self._auth_code`, the pending
`self._auth_future` (none = pending, some c = resolved with code c; the
code never resolves it with an exception), and `self._token` (carried
along to show the handler never touches it). -/

/-- The query parameters of a callback request. -/
structure CbQuery where
  state : Option String
  error : Option String
  code : Option String
  deriving DecidableEq, Repr

/-- Handler state read or written by `_callback_handler`. -/
structure CbState where
  nonce : String
  auth_code : Option String
  future : Option String
  token : Option Tok
  deriving DecidableEq, Repr

/-- An aiohttp `web.Response`. -/
structure CbResponse where
  status : Nat
  text : String
  deriving DecidableEq, Repr

/-- The auto-closing confirmation page (oauth.py lines 14-25). -/
def closeBrowserPage : String := "closeBrowser html"

/-- Python truthiness of `self._auth_code` (the empty string is falsy). -/
def truthyStr : Option String → Bool
  | none => false
  | some v => !(v = "")

/-- `TokenHandler._callback_handler` (oauth.py lines 80-88). -/
def callback_handler (q : CbQuery) (st : CbState) : CbResponse × CbState :=
  -- line 81-82: state mismatch
  if q.state ≠ some st.nonce then
    (⟨400, "State mismatch. Authorization failed."⟩, st)
  -- line 83-84: error parameter present
  else if q.error.isSome then
    (⟨400, "Authorization failed: " ++ q.error.getD ""⟩, st)
  else
    -- line 85: self._auth_code = request.query.get("code")
    let st1 := { st with auth_code := q.code }
    -- line 86-87: resolve the future only when code is truthy and not done
    let st2 :=
      if truthyStr q.code ∧ st1.future = none then
        { st1 with future := q.code }
      else st1
    (⟨200, closeBrowserPage⟩, st2)

/-! ## client.py — RequestHandler._check_scope and the execute pattern (claim C5)

`_check_scope` (client.py lines 118-123) compares the required scopes of
the operation against `set(self.token_handler.scope)` — the scope list the
handler was CONFIGURED with (oauth.py line 61), not the scope string of
the held token.  Every public Client method follows the same pattern
(e.g. lines 170-177): `await self._check_scope(name)` and only then
`await self._request(...)`, which first obtains a token and then issues
one HTTP request. -/

/-- The `SCOPE_REQUIREMENTS` table (client.py lines 11-113). -/
def SCOPE_REQUIREMENTS : List (String × List String) := [
  ("get_playback_state", ["user-read-playback-state"]),
  ("transfer_playback", ["user-modify-playback-state"]),
  ("get_available_devices", ["user-read-playback-state"]),
  ("get_currently_playing", ["user-read-currently-playing"]),
  ("start_playback", ["user-modify-playback-state"]),
  ("pause_playback", ["user-modify-playback-state"]),
  ("skip_to_next", ["user-modify-playback-state"]),
  ("skip_to_previous", ["user-modify-playback-state"]),
  ("seek_to_position", ["user-modify-playback-state"]),
  ("set_repeat_mode", ["user-modify-playback-state"]),
  ("set_playback_volume", ["user-modify-playback-state"]),
  ("set_shuffle", ["user-modify-playback-state"]),
  ("get_recently_played", ["user-read-recently-played"]),
  ("add_to_queue", ["user-modify-playback-state"]),
  ("get_queue", ["user-read-playback-state"]),
  ("get_current_user", ["user-read-private", "user-read-email"]),
  ("get_user_profile", []),
  ("get_followed_artists", ["user-follow-read"]),
  ("follow_artists", ["user-follow-modify"]),
  ("follow_users", ["user-follow-modify"]),
  ("unfollow_artists", ["user-follow-modify"]),
  ("unfollow_users", ["user-follow-modify"]),
  ("check_following_artists", ["user-follow-read"]),
  ("check_following_users", ["user-follow-read"]),
  ("follow_playlist", ["playlist-modify-public", "playlist-modify-private"]),
  ("unfollow_playlist", ["playlist-modify-public", "playlist-modify-private"]),
  ("get_user_top_items", ["user-top-read"]),
  ("get_playlist", []),
  ("change_playlist_details", ["playlist-modify-public", "playlist-modify-private"]),
  ("get_playlist_tracks", []),
  ("add_playlist_tracks", ["playlist-modify-public", "playlist-modify-private"]),
  ("update_playlist_tracks", ["playlist-modify-public", "playlist-modify-private"]),
  ("remove_playlist_tracks", ["playlist-modify-public", "playlist-modify-private"]),
  ("get_current_user_playlists", ["playlist-read-private"]),
  ("get_user_playlists", []),
  ("create_playlist", ["playlist-modify-public", "playlist-modify-private"]),
  ("get_featured_playlists", []),
  ("get_category_playlists", []),
  ("search", []),
  ("get_track", []),
  ("get_several_tracks", []),
  ("get_user_saved_tracks", ["user-library-read"]),
  ("save_tracks", ["user-library-modify"]),
  ("remove_saved_tracks", ["user-library-modify"]),
  ("check_saved_tracks", ["user-library-read"]),
  ("get_track_audio_features", []),
  ("get_several_audio_features", []),
  ("get_track_audio_analysis", []),
  ("get_album", []),
  ("get_several_albums", []),
  ("get_album_tracks", []),
  ("get_user_saved_albums", ["user-library-read"]),
  ("save_albums", ["user-library-modify"]),
  ("remove_saved_albums", ["user-library-modify"]),
  ("check_saved_albums", ["user-library-read"]),
  ("get_new_releases", []),
  ("get_artist", []),
  ("get_several_artists", []),
  ("get_artist_albums", []),
  ("get_artist_top_tracks", []),
  ("get_artist_related_artists", []),
  ("get_audiobook", ["user-read-playback-position"]),
  ("get_several_audiobooks", ["user-read-playback-position"]),
  ("get_audiobook_chapters", ["user-read-playback-position"]),
  ("get_user_saved_audiobooks", ["user-library-read"]),
  ("save_audiobooks", ["user-library-modify"]),
  ("remove_saved_audiobooks", ["user-library-modify"]),
  ("check_saved_audiobooks", ["user-library-read"]),
  ("get_categories", []),
  ("get_category", []),
  ("get_chapter", ["user-read-playback-position"]),
  ("get_several_chapters", ["user-read-playback-position"]),
  ("get_episode", ["user-read-playback-position"]),
  ("get_several_episodes", ["user-read-playback-position"]),
  ("get_user_saved_episodes", ["user-library-read"]),
  ("save_episodes", ["user-library-modify"]),
  ("remove_saved_episodes", ["user-library-modify"]),
  ("check_saved_episodes", ["user-library-read"]),
  ("get_available_genre_seeds", []),
  ("get_available_markets", []),
  ("get_show", ["user-read-playback-position"]),
  ("get_several_shows", ["user-read-playback-position"]),
  ("get_show_episodes", ["user-read-playback-position"]),
  ("get_user_saved_shows", ["user-library-read"]),
  ("save_shows", ["user-library-modify"]),
  ("remove_saved_shows", ["user-library-modify"]),
  ("check_saved_shows", ["user-library-read"])]

/-- `self.SCOPE_REQUIREMENTS.get(method_name, [])` (client.py line 120). -/
def scopeRequirementsOf (method_name : String) : List String :=
  (SCOPE_REQUIREMENTS.lookup method_name).getD []

/-- `missing_scopes = required_scopes - current_scopes` (client.py line 121),
with `current_scopes = set(self.token_handler.scope)` — the configured
scope list of the handler. -/
def missingScopes (handlerScope : List String) (method_name : String) : List String :=
  (scopeRequirementsOf method_name).filter (fun s => ¬ handlerScope.contains s)

/-- `RequestHandler._check_scope` (client.py lines 118-123). -/
def check_scope (handlerScope : List String) (method_name : String) :
    Except String Unit :=
  if (missingScopes handlerScope method_name).isEmpty then .ok ()
  else .error ("Missing required scopes for " ++ method_name)

/-- Split a character list into space-separated words. -/
def scopeWords : List Char → List Char → List String
  | [], cur => if cur.isEmpty then [] else [String.mk cur.reverse]
  | c :: rest, cur =>
      if c = ' ' then
        if cur.isEmpty then scopeWords rest []
        else String.mk cur.reverse :: scopeWords rest []
      else scopeWords rest (c :: cur)

/-- The scope string of a token record, split into the granted scope set
(the token endpoint returns the granted scopes space-separated in the
"scope" field; the code never reads it). -/
def grantedScopes (t : Tok) : List String :=
  match dget t "scope" with
  | some (.s v) => scopeWords v.toList []
  | _ => []

/-- Observable outcome of one Client operation call on its success path. -/
structure ExecOutcome where
  result : Except String Unit
  httpRequests : Nat
  tokenObtained : Bool
  deriving Repr

/-- The shared pattern of every Client endpoint method (client.py, e.g.
lines 170-177): `_check_scope` first; only on success `_request` is
entered, which calls `get_token` (line 132) and then issues one HTTP
request (line 146) carrying the bearer token.  The held token `tok` flows
only into the Authorization header, never into the scope check. -/
def executeOp (handlerScope : List String) (tok : Tok) (method_name : String) :
    ExecOutcome :=
  match check_scope handlerScope method_name with
  | .error e => ⟨.error e, 0, false⟩
  | .ok _ =>
      -- _request: token = await get_token(); bearer = tok["access_token"]
      ⟨.ok (), 1, true⟩

/-! ## client.py — RequestHandler._request retry recursion (claims C3, C4)

Transcription of the response dispatch of `_request` (client.py lines
144-161).  The remote responses a single logical call observes are given
as a stream (one entry per issued HTTP request); the recursion of the
source (lines 152 and 157 call `self._request` again) is made total with
an explicit fuel argument — `result = none` means the recursion depth
exceeded the fuel, i.e. the source recursion has not terminated within
that many attempts. -/

/-- One remote API response as seen by `_request`. -/
structure ApiResp where
  status : Nat
  retryAfterHeader : Option Nat
  jsonBody : String
  deriving DecidableEq, Repr

/-- Accumulated observable behaviour of one `_request` call:
`result` (none = recursion still running after the given fuel),
number of `_refresh_token` calls made from the 401 branch (line 151),
the `asyncio.sleep` durations from the 429 branch (line 156), and the
number of `get_token` calls / HTTP requests issued (lines 132, 146 —
one per attempt). -/
structure ReqTrace where
  result : Option (Except String (Option String))
  refreshes : Nat
  sleeps : List Nat
  attempts : Nat
  deriving Repr

/-- `RequestHandler._request` (client.py lines 129-164) over a response
stream. -/
def requestGo : List ApiResp → Nat → ReqTrace
  | _, 0 => ⟨none, 0, [], 0⟩
  | [], _ + 1 => ⟨some (.error "Request failed: no response"), 0, [], 1⟩
  | r :: rest, fuel + 1 =>
      -- line 148: 204 No content
      if r.status = 204 then ⟨some (.ok none), 0, [], 1⟩
      -- lines 150-152: 401 bad token; refresh, then recurse
      else if r.status = 401 then
        let t := requestGo rest fuel
        ⟨t.result, t.refreshes + 1, t.sleeps, t.attempts + 1⟩
      -- lines 153-157: 429 rate limited; sleep Retry-After (default 1), recurse
      else if r.status = 429 then
        let t := requestGo rest fuel
        ⟨t.result, t.refreshes, (r.retryAfterHeader.getD 1) :: t.sleeps,
          t.attempts + 1⟩
      -- lines 158-160: not resp.ok (status >= 400) raises
      else if 400 ≤ r.status then
        ⟨some (.error ("Request failed with status " ++ toString r.status)), 0, [], 1⟩
      -- line 161: return await resp.json()
      else ⟨some (.ok (some r.jsonBody)), 0, [], 1⟩

/-- A 401 response. -/
def resp401 : ApiResp := ⟨401, none, ""⟩

/-- A 429 response carrying a Retry-After header. -/
def resp429 (d : Option Nat) : ApiResp := ⟨429, d, ""⟩

/-- A successful 200 response with the given body. -/
def resp200 (body : String) : ApiResp := ⟨200, none, body⟩

/-! ## The cooperative execution of TokenHandler (claims C1, C2)

A deterministic small-step machine for the asyncio execution of three
tasks sharing one `TokenHandler` instance:

- task `A`: a caller of `get_token()` (oauth.py lines 193-199),
- task `R`: the background `_token_refresher` task (lines 153-169),
  created by `_login` via `_run` (lines 171-173, 190-191),
- task `B` (optional): a `RequestHandler._request` call (client.py lines
  129-161) whose first response is dictated by the scenario; on a 401 it
  calls `TokenHandler._refresh_token` directly (client.py line 151).

CPython semantics followed by the machine:

- The event loop holds a FIFO ready queue; `loop.call_soon` appends.
  A task runs without interruption until its next suspension point.
- `asyncio.Event.wait()` returns immediately when the flag is set;
  otherwise the task is appended to the waiter list and suspends.
  `Event.set()` sets the flag and resolves every waiter future, which
  appends those tasks to the ready queue; a later `Event.clear()` only
  resets the flag — it does NOT revoke already-resolved waiter futures,
  so a woken waiter proceeds even if the flag was cleared again before
  it got scheduled.
- `asyncio.create_task` appends the new task to the ready queue.
- Awaiting file or network I/O suspends the task; the operation
  completes after the scenario-given duration.  When the ready queue is
  empty the clock advances to the earliest pending completion.
- `time.time()` reads the machine clock.

In `_token_request` the local `r_token` is read (line 119) before the
network await (line 121), so a refresh initiation snapshots the prior
token; the response processing (lines 122-129) runs at completion time.
Scenarios avoid the interactive browser authorization flow and raised
exceptions; paths that would enter them put the task into the explicit
`stuck` marker state. -/

inductive TaskId where
  | A | R | B
  deriving DecidableEq, Repr

inductive SuspKind where
  | load | sleepK | netHttp | netRefresh
  deriving DecidableEq, Repr

/-- Program counter of the `get_token` caller: resumption points after
the storage load in `_login` and after the `Event.wait` future. -/
inductive APc where
  | start | loginLoaded | afterWait
  deriving DecidableEq, Repr

/-- Program counter of `_token_refresher`: entry, top of the while loop
(after a sleep), and resumption after the refresh network call — the
latter carries the snapshot of `self._token` taken when `r_token` was
read at line 119. -/
inductive RPc where
  | start | loopCheck | refreshDone (pendingPrior : Option Tok)
  deriving DecidableEq, Repr

/-- Program counter of the `_request` task. -/
inductive BPc where
  | start | req1 | req1Go | afterHttp1 | bRefreshDone (pendingPrior : Option Tok)
  | retryGo | afterHttp2
  deriving DecidableEq, Repr

/-- Task status: ready at a pc, suspended until `wake`, blocked on the
refresh event, finished, never created, or outside the modelled
scenarios. -/
inductive TSt (Pc : Type) where
  | ready (pc : Pc)
  | susp (pc : Pc) (kind : SuspKind) (wake : Int)
  | evWait (pc : Pc)
  | fin (tok : Option Tok) (t : Int)
  | notCreated
  | stuck
  deriving DecidableEq, Repr

/-- Observable events of a machine execution. -/
inductive Ev where
  | refreshStart (who : TaskId)
  | refreshCommit (who : TaskId) (access : String)
  | httpReq (who : TaskId) (bearer : String)
  | tokenReturn (who : TaskId) (tok : Tok) (t : Int)
  deriving DecidableEq, Repr

/-- The external world of one execution: storage content, I/O durations,
token-endpoint responses (indexed by completion order), and the statuses
of the two API responses task B observes. -/
structure Scenario where
  startClock : Int
  storedToken : Option Tok
  dLoad : Int
  refreshResp : Nat → HttpResp
  dRefresh : Int
  bPresent : Bool
  dBStart : Int
  dHttp : Int
  dBRefresh : Int
  bStatus1 : Nat
  bStatus2 : Nat

/-- Machine state: the shared `TokenHandler` fields (`_token`,
`_refresh_event` value and waiter list, `_running`), the event loop
ready queue, the clock, the three task states, the records passed to
`storage.save_token`, the event log, and the number of completed
token-endpoint calls. -/
structure MState where
  clock : Int
  token : Option Tok
  eventValue : Bool
  eventWaiters : List TaskId
  running : Bool
  queue : List TaskId
  ta : TSt APc
  tr : TSt RPc
  tb : TSt BPc
  savedLog : List Tok
  log : List Ev
  refreshCount : Nat

def initState (sc : Scenario) : MState :=
  { clock := sc.startClock, token := none, eventValue := false,
    eventWaiters := [], running := false,
    queue := if sc.bPresent then [TaskId.A, TaskId.B] else [TaskId.A],
    ta := .ready .start, tr := .notCreated,
    tb := if sc.bPresent then .ready .start else .notCreated,
    savedLog := [], log := [], refreshCount := 0 }

/-- Resolving the waiter future of one blocked task (part of `Event.set`). -/
def wakeWaiter (s : MState) (tid : TaskId) : MState :=
  match tid with
  | .A => match s.ta with | .evWait pc => { s with ta := .ready pc } | _ => s
  | .R => match s.tr with | .evWait pc => { s with tr := .ready pc } | _ => s
  | .B => match s.tb with | .evWait pc => { s with tb := .ready pc } | _ => s

/-- `asyncio.Event.set`: set the flag, resolve all waiter futures and
schedule the waiting tasks in FIFO order. -/
def evSet (s : MState) : MState :=
  let s1 := s.eventWaiters.foldl wakeWaiter s
  { s1 with eventValue := true, queue := s1.queue ++ s.eventWaiters,
            eventWaiters := [] }

/-- `asyncio.Event.clear`: reset the flag only. -/
def evClear (s : MState) : MState := { s with eventValue := false }

/-- The access_token field of a record. -/
def accessOf (t : Tok) : String :=
  match dget t "access_token" with
  | some (.s v) => v
  | _ => ""

/-- Completion of a token-endpoint call: `_token_request` after the
network await (oauth.py lines 122-129), with `r_token` taken from the
snapshot `pendingPrior` read at initiation.  Returns the new state and
whether the call succeeded (on failure the caller follows an error path
outside the modelled scenarios). -/
def commitRefresh (sc : Scenario) (who : TaskId) (pendingPrior : Option Tok)
    (s : MState) : MState × Bool :=
  let out := token_request pendingPrior (sc.refreshResp s.refreshCount) s.clock
  let s1 := { s with token := out.selfToken,
                     savedLog := s.savedLog ++
                       (match out.saved with | some t => [t] | none => []),
                     refreshCount := s.refreshCount + 1 }
  match out.result with
  | .ok t => ({ s1 with log := s1.log ++ [.refreshCommit who (accessOf t)] }, true)
  | .error _ => (s1, false)

/-- `return self._token` (oauth.py line 199) for the `get_token` caller. -/
def aReturn (s : MState) : MState :=
  match s.token with
  | some t => { s with ta := .fin (some t) s.clock,
                       log := s.log ++ [.tokenReturn .A t s.clock] }
  | none => { s with ta := .stuck }

/-- `await self._refresh_event.wait()` (oauth.py line 198) for task A:
return at once when the flag is set, else block as a waiter whose
resumption point does not re-check the flag. -/
def aWaitOrReturn (s : MState) : MState :=
  if s.eventValue then aReturn s
  else { s with ta := .evWait .afterWait,
                eventWaiters := s.eventWaiters ++ [TaskId.A] }

/-- One uninterrupted slice of task A (`get_token`, oauth.py 193-199, and
`_login`, 182-191). -/
def runASlice (sc : Scenario) (s : MState) (pc : APc) : MState :=
  match pc with
  | .start =>
      -- 195-196: if not self._token: await self._login()
      if truthyTok s.token then aWaitOrReturn s
      else
        -- 185: self._token = await self.storage.load_token(...): file I/O
        { s with ta := .susp .loginLoaded .load (s.clock + sc.dLoad) }
  | .loginLoaded =>
      let s1 := { s with token := sc.storedToken }
      match sc.storedToken with
      | none => { s1 with ta := .stuck }   -- 189: browser authorization flow
      | some _ =>
          -- 190-191: if not self._running: await self._run()  — create_task
          if ¬ s1.running then
            match s1.tr with
            | .notCreated =>
                aWaitOrReturn { s1 with tr := .ready .start,
                                        queue := s1.queue ++ [TaskId.R] }
            | _ => { s1 with ta := .stuck }   -- a second refresher task
          else aWaitOrReturn s1
  | .afterWait => aReturn s

/-- The body of the `while self._running` loop of `_token_refresher`
(oauth.py lines 158-169), run up to its next suspension. -/
def rLoop (sc : Scenario) (s : MState) : MState :=
  if ¬ s.running then { s with tr := .fin none s.clock }
  else
    match s.token with
    | none => { s with tr := .stuck }       -- line 159 would raise
    | some t =>
        match dget t "expires_time" with
        | some (.n et) =>
            let time_left := et - s.clock - 60
            if time_left ≤ 0 then
              -- 163: clear the gate; 165: await self._refresh_token():
              -- r_token snapshot, then the network call is in flight
              let s1 := evClear s
              { s1 with
                tr := .susp (.refreshDone s1.token) .netRefresh
                        (s1.clock + sc.dRefresh),
                log := s1.log ++ [.refreshStart .R] }
            else
              -- 169: await asyncio.sleep(time_left)
              { s with tr := .susp .loopCheck .sleepK (s.clock + time_left) }
        | _ => { s with tr := .stuck }      -- KeyError at line 159

/-- One uninterrupted slice of task R (`_token_refresher`). -/
def runRSlice (sc : Scenario) (s : MState) (pc : RPc) : MState :=
  match pc with
  | .start =>
      -- 155-156: self._running = True; self._refresh_event.set()
      rLoop sc (evSet { s with running := true })
  | .loopCheck => rLoop sc s
  | .refreshDone pendingPrior =>
      let (s1, ok) := commitRefresh sc .R pendingPrior s
      if ok then
        -- 167: self._refresh_event.set(); 168: continue
        rLoop sc (evSet s1)
      else { s1 with tr := .stuck }         -- 139-141: fall back to authorize

/-- Bearer header and HTTP dispatch of task B (client.py lines 132-146):
read the token through `get_token`, log the request, suspend on the
network call. -/
def bIssueHttp (s : MState) (next : BPc) (dur : Int) : MState :=
  match s.token with
  | some t =>
      { s with tb := .susp next .netHttp (s.clock + dur),
               log := s.log ++ [.tokenReturn .B t s.clock,
                                .httpReq .B (accessOf t)] }
  | none => { s with tb := .stuck }

/-- One uninterrupted slice of task B (`RequestHandler._request`). -/
def runBSlice (sc : Scenario) (s : MState) (pc : BPc) : MState :=
  match pc with
  | .start =>
      -- the client call arrives after a scenario-given delay
      { s with tb := .susp .req1 .sleepK (s.clock + sc.dBStart) }
  | .req1 =>
      -- client.py 132: token = await get_token(); token held in scenarios,
      -- so only the event gate matters (oauth.py 198)
      if ¬ truthyTok s.token then { s with tb := .stuck }
      else if s.eventValue then bIssueHttp s .afterHttp1 sc.dHttp
      else { s with tb := .evWait .req1Go,
                    eventWaiters := s.eventWaiters ++ [TaskId.B] }
  | .req1Go => bIssueHttp s .afterHttp1 sc.dHttp
  | .afterHttp1 =>
      if sc.bStatus1 = 204 then { s with tb := .fin none s.clock }
      else if sc.bStatus1 = 401 then
        -- client.py 151: await self.token_handler._refresh_token()
        -- (oauth.py 131-138 -> _token_request: r_token snapshot, network call)
        { s with tb := .susp (.bRefreshDone s.token) .netRefresh
                         (s.clock + sc.dBRefresh),
                 log := s.log ++ [.refreshStart .B] }
      else if sc.bStatus1 = 429 then
        -- client.py 153-157: sleep Retry-After then re-enter _request
        { s with tb := .susp .req1 .sleepK (s.clock + 1) }
      else if 400 ≤ sc.bStatus1 then { s with tb := .stuck }    -- raise
      else { s with tb := .fin s.token s.clock }
  | .bRefreshDone pendingPrior =>
      let (s1, ok) := commitRefresh sc .B pendingPrior s
      if ok then
        -- client.py 152: return await self._request(...): get_token again
        if ¬ truthyTok s1.token then { s1 with tb := .stuck }
        else if s1.eventValue then bIssueHttp s1 .afterHttp2 sc.dHttp
        else { s1 with tb := .evWait .retryGo,
                       eventWaiters := s1.eventWaiters ++ [TaskId.B] }
      else { s1 with tb := .stuck }                             -- raise
  | .retryGo => bIssueHttp s .afterHttp2 sc.dHttp
  | .afterHttp2 =>
      if sc.bStatus2 = 204 then { s with tb := .fin none s.clock }
      else if sc.bStatus2 < 400 then { s with tb := .fin s.token s.clock }
      else { s with tb := .stuck }   -- further retries outside the scenarios

/-- Dispatch one ready task. -/
def runSlice (sc : Scenario) (s : MState) (tid : TaskId) : MState :=
  match tid with
  | .A => match s.ta with | .ready pc => runASlice sc s pc | _ => s
  | .R => match s.tr with | .ready pc => runRSlice sc s pc | _ => s
  | .B => match s.tb with | .ready pc => runBSlice sc s pc | _ => s

def wakeOf {Pc : Type} : TSt Pc → Option Int
  | .susp _ _ w => some w
  | _ => none

def omin : Option Int → Option Int → Option Int
  | none, b => b
  | a, none => a
  | some x, some y => some (min x y)

def minWake (s : MState) : Option Int :=
  omin (wakeOf s.ta) (omin (wakeOf s.tr) (wakeOf s.tb))

/-- When the ready queue is empty, advance the clock to the earliest
pending completion and schedule the tasks due at that instant (the
scenarios are chosen tie-free, so at most one task is due). -/
def advanceClock (s : MState) : MState :=
  match minWake s with
  | none => s
  | some w =>
      let s1 := { s with clock := w }
      let s2 := match s1.ta with
        | .susp pc _ wk =>
            if wk ≤ w then { s1 with ta := .ready pc, queue := s1.queue ++ [TaskId.A] }
            else s1
        | _ => s1
      let s3 := match s2.tr with
        | .susp pc _ wk =>
            if wk ≤ w then { s2 with tr := .ready pc, queue := s2.queue ++ [TaskId.R] }
            else s2
        | _ => s2
      match s3.tb with
      | .susp pc _ wk =>
          if wk ≤ w then { s3 with tb := .ready pc, queue := s3.queue ++ [TaskId.B] }
          else s3
      | _ => s3

/-- One machine step: run the head of the ready queue, or advance time. -/
def mstep (sc : Scenario) (s : MState) : MState :=
  match s.queue with
  | tid :: rest => runSlice sc { s with queue := rest } tid
  | [] => advanceClock s

/-- The execution after k steps. -/
def mrun (sc : Scenario) : Nat → MState
  | 0 => initState sc
  | k + 1 => mstep sc (mrun sc k)

def inNetRefresh {Pc : Type} : TSt Pc → Bool
  | .susp _ .netRefresh _ => true
  | _ => false

/-- Number of token-endpoint (refresh/exchange) network calls in flight. -/
def refreshInFlight (s : MState) : Nat :=
  (if inNetRefresh s.ta then 1 else 0) + (if inNetRefresh s.tr then 1 else 0) +
    (if inNetRefresh s.tb then 1 else 0)

/-- Number of in-flight refreshes initiated by the background refresher. -/
def refresherInFlight (s : MState) : Nat :=
  if inNetRefresh s.tr then 1 else 0

/-- Token-endpoint responses used by the scenarios: 200, fresh access
token per call, expires_in 3600, no refresh_token field. -/
def refreshRespAt (k : Nat) : HttpResp :=
  ⟨200, [("access_token", .s ("RAT" ++ toString k)), ("expires_in", .n 3600)], ""⟩

/-- The stored record of the C1 scenario: expired 10 seconds before the
start clock 1000 (spec scenario: expires_time 10s in the past). -/
def t0Expired : Tok :=
  [("access_token", .s "AT0"), ("refresh_token", .s "RT0"),
   ("expires_time", .n 990)]

/-- C1 scenario: storage holds `t0Expired`; a single `get_token` caller. -/
def c1Scenario : Scenario :=
  { startClock := 1000, storedToken := some t0Expired, dLoad := 1,
    refreshResp := refreshRespAt, dRefresh := 5, bPresent := false,
    dBStart := 0, dHttp := 0, dBRefresh := 0, bStatus1 := 200, bStatus2 := 200 }

/-- The stored record of the C2 scenario: valid until clock 1100. -/
def t0Valid : Tok :=
  [("access_token", .s "AT0"), ("refresh_token", .s "RT0"),
   ("expires_time", .n 1100)]

/-- C2 scenario: a `get_token` caller, the background refresher, and a
request task whose first response is a 401 arriving while the refresher
has a refresh in flight. -/
def c2Scenario : Scenario :=
  { startClock := 1000, storedToken := some t0Valid, dLoad := 1,
    refreshResp := refreshRespAt, dRefresh := 20, bPresent := true,
    dBStart := 20, dHttp := 25, dBRefresh := 10, bStatus1 := 401,
    bStatus2 := 200 }

/-- The record committed by the refresher in the C2 scenario. -/
def c2RefresherTok : Tok :=
  [("access_token", .s "RAT1"), ("expires_in", .n 3600),
   ("refresh_token", .s "RT0"), ("expires_time", .n 4660)]

/-! ## Concrete inputs used by counterexamples and witnesses -/

/-- A well-formed 200 token-endpoint response that omits refresh_token
(Spotify-permitted). -/
def c10Resp : HttpResp :=
  ⟨200, [("access_token", .s "AT1"), ("expires_in", .n 3600)], ""⟩

/-- A callback with matching state that carries an error parameter. -/
def c7Query : CbQuery := ⟨some "xyz", some "access_denied", none⟩

/-- Handler state with nonce "xyz" and a pending (unresolved) attempt. -/
def c7State : CbState := ⟨"xyz", none, none, none⟩

/-- Handler configured with (requesting) the playback-state scope. -/
def c5ConfigScope : List String := ["user-read-playback-state"]

/-- A token whose granted scope set (its "scope" field) is empty. -/
def c5Token : Tok := [("access_token", .s "AT1"), ("scope", .s "")]

/-- Response stream: two consecutive 401 responses, then success. -/
def c3Stream : List ApiResp := [resp401, resp401, resp200 "payload"]

/-! # Theorems -/

/-! ## Dict, filesystem and retry-loop helper lemmas -/

theorem dget_dset_same (t : Tok) (k : String) (v : JVal) :
    dget (dset t k v) k = some v := by
  induction t with
  | nil => simp [dset, dget]
  | cons hd tl ih =>
      obtain ⟨k1, v1⟩ := hd
      by_cases h : k1 = k
      · simp [dset, dget, h]
      · simp [dset, dget, h, ih]

theorem dget_dset_ne (t : Tok) (k k2 : String) (v : JVal) (h : k ≠ k2) :
    dget (dset t k v) k2 = dget t k2 := by
  induction t with
  | nil => simp [dset, dget, h]
  | cons hd tl ih =>
      obtain ⟨k1, v1⟩ := hd
      by_cases h1 : k1 = k
      · subst h1
        simp [dset, dget, h]
      · by_cases h2 : k1 = k2
        · subst h2
          simp [dset, dget, h1]
        · simp [dset, dget, h1, h2, ih]

theorem fsRead_fsWrite_same (fs : FS) (p : String) (t : Tok) :
    fsRead (fsWrite fs p t) p = some t := by
  induction fs with
  | nil => simp [fsWrite, fsRead]
  | cons hd tl ih =>
      obtain ⟨p1, t1⟩ := hd
      by_cases h : p1 = p
      · simp [fsWrite, fsRead, h]
      · simp [fsWrite, fsRead, h, ih]

/-- A run of n consecutive 401 responses followed by a success: each 401
costs one refresh and one further attempt; the success body is returned.
With only 401 responses, every fuel bound is exhausted. -/
theorem requestGo_401_run (n : Nat) (body : String) :
    requestGo (List.replicate n resp401 ++ [resp200 body]) (n + 1) =
      ⟨some (.ok (some body)), n, [], n + 1⟩ ∧
    (requestGo (List.replicate n resp401) n).result = none := by
  induction n with
  | zero => exact ⟨rfl, rfl⟩
  | succ m ih =>
      obtain ⟨h1, h2⟩ := ih
      simp only [resp401] at h1 h2 ⊢
      constructor
      · simp [List.replicate_succ, requestGo, h1]
      · simp [List.replicate_succ, requestGo, h2]

/-- A run of 429 responses with the given Retry-After headers followed by
a success: each 429 causes one sleep of exactly the header duration
(1 when absent) and one further attempt. -/
theorem requestGo_429_run (ds : List (Option Nat)) (body : String) :
    requestGo (ds.map resp429 ++ [resp200 body]) (ds.length + 1) =
      ⟨some (.ok (some body)), 0, ds.map (fun d => d.getD 1), ds.length + 1⟩ := by
  induction ds with
  | nil => rfl
  | cons d rest ih =>
      simp only [List.map_cons, List.cons_append, List.length_cons]
      rw [requestGo]
      simp [resp429, ih]

/-! ## Claim C9 — storage round-trip and absent records -/

/-- C9: saving a record and loading with the same account key and storage
directory returns exactly the saved record — in particular its access
token, refresh token and expiry fields are identical — and loading an
account key for which nothing was ever saved returns an absent result
(None) instead of raising. -/
theorem c9_storage_roundtrip (fs : FS) (storage_dir : String) (t : Tok)
    (name emptyName : String) :
    load_token (save_token fs storage_dir t name) storage_dir name = some t ∧
    load_token [] storage_dir emptyName = none := by
  exact ⟨fsRead_fsWrite_same fs (tokenFilePath storage_dir name) t, rfl⟩

/-! ## Claim C10 — the unbound r_token local on the initial exchange -/

/-- C10: an initial authorization-code exchange (no prior record held)
whose 200 response omits the refresh_token field raises an unhandled
UnboundLocalError for the local r_token (oauth.py line 126, assigned only
at line 119 under `if self._token:`) instead of committing and persisting
a finished record — exhibited on a concrete well-formed response, so the
error branch is reachable and the exchange is not total. -/
theorem c10_initial_exchange_raises_unbound_local :
    (token_request none c10Resp 1000).result = .error (.unboundLocal "r_token") ∧
    (token_request none c10Resp 1000).saved = none ∧
    c10Resp.status = 200 := by
  exact ⟨rfl, rfl, rfl⟩

/-! ## Claim C7 — error callbacks do not resolve the attempt -/

/-- C7 counterexample: a callback whose state matches the active nonce
and whose query carries an error parameter does NOT resolve the pending
attempt (the future stays unresolved and no AuthorizationDenied result is
delivered) — the handler merely returns a 400 page (oauth.py lines 83-84
return before touching the future). This falsifies the claim that such a
callback resolves the attempt and unblocks the awaiting caller. -/
theorem c7_error_callback_leaves_future_pending :
    c7Query.state = some c7State.nonce ∧ c7Query.error.isSome = true ∧
    (callback_handler c7Query c7State).2.future = none ∧
    ¬ (callback_handler c7Query c7State).2.future.isSome := by
  exact ⟨rfl, rfl, rfl, by decide⟩

/-- C7 amended: for every callback whose state matches the active nonce
and which carries an error parameter, the handler responds with a 400
error page and leaves the handler state — in particular the pending
future and the token — completely unchanged; the awaiting caller is not
unblocked. -/
theorem c7_amended_error_callback_ignored (q : CbQuery) (st : CbState)
    (hs : q.state = some st.nonce) (he : q.error.isSome = true) :
    (callback_handler q st).1 =
      ⟨400, "Authorization failed: " ++ q.error.getD ""⟩ ∧
    (callback_handler q st).2 = st := by
  unfold callback_handler
  simp [hs, he]

/-- Witness for the C7 amended theorem at the concrete error callback. -/
theorem c7_amended_error_callback_ignored_witness :
    (callback_handler c7Query c7State).1 =
      ⟨400, "Authorization failed: " ++ c7Query.error.getD ""⟩ ∧
    (callback_handler c7Query c7State).2 = c7State :=
  c7_amended_error_callback_ignored c7Query c7State rfl rfl

/-! ## Claim C6 — state validation and first-callback-wins -/

/-- C6: a callback whose state does not match the active nonce gets the
error page and changes nothing (it neither resolves the attempt nor
mutates the token); and for callbacks with matching state arriving after
the attempt is already resolved, the resolved result and the token are
left unchanged, the error-free ones being accepted with the 200
confirmation page. -/
theorem c6_callback_state_guard (q : CbQuery) (st : CbState) :
    (q.state ≠ some st.nonce →
      (callback_handler q st).1 =
        ⟨400, "State mismatch. Authorization failed."⟩ ∧
      (callback_handler q st).2 = st) ∧
    (q.state = some st.nonce → st.future.isSome →
      (callback_handler q st).2.future = st.future ∧
      (callback_handler q st).2.token = st.token) ∧
    (q.state = some st.nonce → q.error = none → st.future.isSome →
      (callback_handler q st).1 = ⟨200, closeBrowserPage⟩) := by
  refine ⟨fun hmm => ?_, fun hs hf => ?_, fun hs he hf => ?_⟩
  · unfold callback_handler
    simp [hmm]
  · unfold callback_handler
    rcases hq : q.error with _ | e
    · have hne : st.future ≠ none := by
        intro hcon
        rw [hcon] at hf
        exact Bool.noConfusion hf
      simp [hs, hq, hne]
    · simp [hs, hq]
  · unfold callback_handler
    simp [hs, he]

/-- Witness for C6: the mismatch branch applied to a forged-state
callback, and the already-resolved branch applied to a duplicate valid
callback. -/
theorem c6_callback_state_guard_witness :
    ((callback_handler ⟨some "forged", none, some "c2"⟩
        ⟨"xyz", some "c1", some "c1", none⟩).1 =
      ⟨400, "State mismatch. Authorization failed."⟩ ∧
     (callback_handler ⟨some "forged", none, some "c2"⟩
        ⟨"xyz", some "c1", some "c1", none⟩).2 =
      ⟨"xyz", some "c1", some "c1", none⟩) ∧
    ((callback_handler ⟨some "xyz", none, some "c2"⟩
        ⟨"xyz", some "c1", some "c1", none⟩).2.future = some "c1" ∧
     (callback_handler ⟨some "xyz", none, some "c2"⟩
        ⟨"xyz", some "c1", some "c1", none⟩).1 = ⟨200, closeBrowserPage⟩) :=
  ⟨(c6_callback_state_guard ⟨some "forged", none, some "c2"⟩
      ⟨"xyz", some "c1", some "c1", none⟩).1 (by decide),
   ⟨((c6_callback_state_guard ⟨some "xyz", none, some "c2"⟩
        ⟨"xyz", some "c1", some "c1", none⟩).2.1 rfl rfl).1,
    (c6_callback_state_guard ⟨some "xyz", none, some "c2"⟩
        ⟨"xyz", some "c1", some "c1", none⟩).2.2 rfl rfl rfl⟩⟩

/-! ## Claim C5 — the scope gate checks the configured list, not the
token's granted scopes -/

/-- C5 counterexample: for operation get_playback_state the required
scope user-read-playback-state is absent from the granted scope set of
the held token (its "scope" field is empty), yet execute proceeds without
MissingScope and issues one HTTP request — because `_check_scope`
(client.py line 119) reads `self.token_handler.scope`, the scope list the
handler was configured with, never the token.  This falsifies the claimed
raises-iff on the granted scope set. -/
theorem c5_scope_gate_ignores_token :
    "user-read-playback-state" ∈ scopeRequirementsOf "get_playback_state" ∧
    "user-read-playback-state" ∉ grantedScopes c5Token ∧
    (executeOp c5ConfigScope c5Token "get_playback_state").result = .ok () ∧
    (executeOp c5ConfigScope c5Token "get_playback_state").httpRequests = 1 := by
  refine ⟨by decide, by decide, rfl, rfl⟩

/-- C5 amended: the gate is a raises-iff on the CONFIGURED scope list of
the handler (the requested scopes), for every operation name, every
configured list and every held token: execute fails with MissingScope —
issuing zero HTTP requests and obtaining no token — exactly when some
scope required by the operation is missing from the configured list, and
the held token never influences the check. -/
theorem c5_amended_gate_on_configured_scopes (handlerScope : List String)
    (tok : Tok) (method_name : String) :
    executeOp handlerScope tok method_name =
      ⟨if (missingScopes handlerScope method_name).isEmpty then .ok ()
       else .error ("Missing required scopes for " ++ method_name),
       if (missingScopes handlerScope method_name).isEmpty then 1 else 0,
       (missingScopes handlerScope method_name).isEmpty⟩ := by
  unfold executeOp check_scope
  rcases h : (missingScopes handlerScope method_name).isEmpty with _ | _
  · simp [h]
  · simp [h]

/-! ## Claim C3 — 401 handling retries without bound, no AuthFailure -/

/-- C3 counterexample: on the response stream 401, 401, 200 the executor
performs TWO refresh-and-retry cycles (client.py lines 150-152 recurse
unconditionally on every 401) and returns the final success — it does not
stop after one refresh and one retry, and no AuthFailure-style error is
raised on the repeated 401.  This falsifies the claimed
exactly-one-refresh-one-retry behaviour at a concrete input. -/
theorem c3_second_401_triggers_second_refresh :
    (requestGo c3Stream 9).refreshes = 2 ∧
    (requestGo c3Stream 9).result = some (.ok (some "payload")) ∧
    ¬ (requestGo c3Stream 9).refreshes ≤ 1 := by
  refine ⟨rfl, rfl, by decide⟩

/-- C3 amended: every 401 response forces one refresh followed by a
retry of the request, recursing without bound: n consecutive 401
responses followed by a success yield exactly n refreshes and the
successful result, and with only 401 responses every recursion depth is
exhausted (the call never fails with an AuthFailure — it never returns). -/
theorem c3_amended_unbounded_401_retries (n : Nat) (body : String) :
    (requestGo (List.replicate n resp401 ++ [resp200 body]) (n + 1)).refreshes
      = n ∧
    (requestGo (List.replicate n resp401 ++ [resp200 body]) (n + 1)).result
      = some (.ok (some body)) ∧
    (requestGo (List.replicate n resp401) n).result = none := by
  have h := requestGo_401_run n body
  rw [h.1]
  exact ⟨rfl, rfl, h.2⟩

/-! ## Claim C4 — rate-limit retries are not bounded by any maximum -/

/-- C4 counterexample: no maximum retry count bounds the number of
rate-limit retries of a single call — for every candidate bound N there
is a 429 response stream on which the executor sleeps and retries N+1
times (client.py lines 153-157 recurse unconditionally on every 429).
This is the negation of the claimed bounded-retry property. -/
theorem c4_no_retry_bound :
    ¬ ∃ N : Nat, ∀ n : Nat,
        (requestGo (List.replicate n (resp429 (some 2)) ++ [resp200 "b"])
            (n + 1)).sleeps.length ≤ N := by
  rintro ⟨N, h⟩
  have h1 := h (N + 1)
  have h2 := requestGo_429_run (List.replicate (N + 1) (some 2)) "b"
  rw [List.map_replicate, List.map_replicate, List.length_replicate] at h2
  rw [h2] at h1
  simp [List.length_replicate] at h1

/-- C4 amended: on every 429 the executor reads the Retry-After duration
from the response (defaulting to 1 when the header is absent) and sleeps
exactly that duration before retrying; the retries continue for
arbitrarily long 429 runs — there is no maximum retry count. -/
theorem c4_amended_sleeps_follow_retry_after (ds : List (Option Nat))
    (body : String) :
    (requestGo (ds.map resp429 ++ [resp200 body]) (ds.length + 1)).sleeps =
      ds.map (fun d => d.getD 1) ∧
    (requestGo (ds.map resp429 ++ [resp200 body]) (ds.length + 1)).result =
      some (.ok (some body)) ∧
    (requestGo (ds.map resp429 ++ [resp200 body]) (ds.length + 1)).attempts =
      ds.length + 1 := by
  rw [requestGo_429_run]
  exact ⟨rfl, rfl, rfl⟩

/-! ## Claim C8 — refresh merge policy, expiry and persistence -/

/-- C8: for every successful (status-200) refresh with a prior record
holding a refresh token: when the response omits refresh_token the
committed record retains the prior refresh token, when the response
includes one the new value replaces it; in both cases the committed
record's expiry equals the processing time plus the response expires_in,
and exactly that record is persisted to storage (oauth.py lines 115-129). -/
theorem c8_refresh_merge_policy (p : Tok) (rt : JVal) (resp : HttpResp)
    (now ei : Int)
    (hp : p ≠ [])
    (hrt : dget p "refresh_token" = some rt)
    (hst : resp.status = 200)
    (hei : dget resp.body "expires_in" = some (.n ei)) :
    ∃ tok,
      (token_request (some p) resp now).result = .ok tok ∧
      (token_request (some p) resp now).saved = some tok ∧
      dget tok "expires_time" = some (.n (now + ei)) ∧
      dget tok "refresh_token" =
        (match dget resp.body "refresh_token" with
         | some v => some v
         | none => some rt) := by
  have hne1 : ("refresh_token" : String) ≠ "expires_in" := by decide
  have hne2 : ("expires_time" : String) ≠ "refresh_token" := by decide
  have htr : truthyTok (some p) = true := by
    simp [truthyTok, List.isEmpty_iff, hp]
  rcases hb : dget resp.body "refresh_token" with _ | v
  · -- response omits refresh_token: merged from the r_token snapshot
    have e1 : token_request (some p) resp now =
        tokenRequestExpiry (dset resp.body "refresh_token" rt) now := by
      simp [token_request, htr, hrt, tokenRequestPost, hst,
        tokenRequestFinish, dmem, hb]
    have hlook : dget (dset resp.body "refresh_token" rt) "expires_in" =
        some (.n ei) := by
      rw [dget_dset_ne _ _ _ _ hne1]
      exact hei
    refine ⟨dset (dset resp.body "refresh_token" rt) "expires_time"
      (.n (now + ei)), ?_, ?_, ?_, ?_⟩
    · rw [e1]
      simp [tokenRequestExpiry, hlook, pyInt]
    · rw [e1]
      simp [tokenRequestExpiry, hlook, pyInt]
    · exact dget_dset_same _ _ _
    · rw [dget_dset_ne _ _ _ _ hne2, dget_dset_same]
  · -- response carries a refresh_token: it is kept as-is
    have e1 : token_request (some p) resp now =
        tokenRequestExpiry resp.body now := by
      simp [token_request, htr, hrt, tokenRequestPost, hst,
        tokenRequestFinish, dmem, hb]
    refine ⟨dset resp.body "expires_time" (.n (now + ei)), ?_, ?_, ?_, ?_⟩
    · rw [e1]
      simp [tokenRequestExpiry, hei, pyInt]
    · rw [e1]
      simp [tokenRequestExpiry, hei, pyInt]
    · exact dget_dset_same _ _ _
    · rw [dget_dset_ne _ _ _ _ hne2, hb]

/-- Witness for C8 on a concrete refresh: prior record `t0Valid`, a 200
response omitting refresh_token, processing time 7. -/
theorem c8_refresh_merge_policy_witness :
    ∃ tok,
      (token_request (some t0Valid) c10Resp 7).result = .ok tok ∧
      (token_request (some t0Valid) c10Resp 7).saved = some tok ∧
      dget tok "expires_time" = some (.n (7 + 3600)) ∧
      dget tok "refresh_token" =
        (match dget c10Resp.body "refresh_token" with
         | some v => some v
         | none => some (.s "RT0")) :=
  c8_refresh_merge_policy t0Valid (.s "RT0") c10Resp 7 3600 (by decide) rfl
    rfl rfl

/-! ## Claim C1 — get_token can return an already-expired record -/

/-- C1: the spec scenario (stored record whose expires_time lies 10s in
the past) refutes the claim that get_token never returns a record past
its expiry.  In the modelled CPython execution the refresher task sets
the freshly-created gate event — resolving the waiting caller's future —
and then clears it and starts the refresh in the same slice; a cleared
`asyncio.Event` does not revoke already-resolved futures, so the caller
resumes and `return self._token` (oauth.py line 199) yields the stored
expired record (expires_time 990) at clock 1001 while the refresh is
still in flight: the refresh is initiated before the return
(refreshStart precedes tokenReturn in the log) but the returned record
is already past its expiry at the moment of return. -/
theorem c1_get_token_returns_expired_record :
    (mrun c1Scenario 5).ta = .fin (some t0Expired) 1001 ∧
    dget t0Expired "expires_time" = some (.n 990) ∧
    (990 : Int) < 1001 ∧
    (mrun c1Scenario 5).log =
      [.refreshStart .R, .tokenReturn .A t0Expired 1001] ∧
    inNetRefresh (mrun c1Scenario 5).tr = true := by
  refine ⟨rfl, rfl, by decide, rfl, rfl⟩

/-! ## Claim C2 — two refresh calls can be in flight at once -/

/-- C2 counterexample: in the modelled execution reachable from a fresh
TokenHandler (stored valid record, one get_token caller, the background
refresher, and one API request whose response is a 401 arriving while
the refresher's refresh is in flight), step 12 is a state with TWO
token-endpoint refresh calls in flight at once — the 401 branch of
`_request` (client.py line 151) calls `_refresh_token` directly, outside
the event gate.  This falsifies the claimed at-most-one-in-flight
invariant over reachable states. -/
theorem c2_two_refreshes_in_flight :
    refreshInFlight (mrun c2Scenario 12) = 2 ∧
    ¬ refreshInFlight (mrun c2Scenario 12) ≤ 1 := by
  have h : refreshInFlight (mrun c2Scenario 12) = 2 := rfl
  refine ⟨h, ?_⟩
  rw [h]
  omega

/-- C2 amended: refreshes initiated by the background refresher task are
serial — throughout the modelled execution at most one refresher-initiated
token-endpoint call is in flight — and a get_token caller that waits on
the refresh gate during such a refresh receives exactly the record that
refresh committed (in the trace, task B blocked on the gate obtains the
record with the refresher's access token RAT1); but 401-triggered
refreshes bypass the gate, so the at-most-one property does not extend to
them (see the counterexample). -/
theorem c2_amended_refresher_single_flight :
    (∀ k : Nat, k ≤ 40 → refresherInFlight (mrun c2Scenario k) ≤ 1) ∧
    Ev.tokenReturn .B c2RefresherTok 1060 ∈ (mrun c2Scenario 19).log ∧
    Ev.refreshCommit .R "RAT1" ∈ (mrun c2Scenario 19).log ∧
    accessOf c2RefresherTok = "RAT1" := by
  refine ⟨?_, by decide, by decide, rfl⟩
  decide

/-- Witness for the C2 amended theorem at step 12 of the trace. -/
theorem c2_amended_refresher_single_flight_witness :
    refresherInFlight (mrun c2Scenario 12) ≤ 1 :=
  c2_amended_refresher_single_flight.1 12 (by decide)

end Spotifio
